import Mathlib

/-!
Verification of the Builder Fest ticket-purchase client.

This file shallowly embeds the pure core of the application (`src/unnamed/part_001`):
the minimal CBOR counter decoder, hex conversion, the two-tier price function,
collateral selection, ticket-name/datum derivation, script-version normalisation
and dispatch, the signature merger, and the sequential control flow of the
purchase-build routine (`refreshWallet`).  Machine integers are modelled as
`Nat`/`Int`; JavaScript's 32-bit signed bitwise semantics are modelled explicitly
(`toInt32`).  External libraries (the CSL transaction codec, the Mesh builder)
are modelled at their interfaces: a `CborCodec` record of decoders and a
`MeshTxBuilder` op log.
-/

/-! ## Hex conversion (`hexToBytes`, line 520) -/

/-- Value of a single hexadecimal digit, case-insensitive (as accepted by
JavaScript `parseInt(_, 16)`). -/
def hexVal (c : Char) : Option Nat :=
  if '0' ≤ c ∧ c ≤ '9' then some (c.toNat - '0'.toNat)
  else if 'a' ≤ c ∧ c ≤ 'f' then some (c.toNat - 'a'.toNat + 10)
  else if 'A' ≤ c ∧ c ≤ 'F' then some (c.toNat - 'A'.toNat + 10)
  else none

/-- Models `parseInt(s, 16)` on a two-character slice followed by the
`Uint8Array` byte store.  `parseInt` parses the longest hex-digit run
(after optional whitespace or a sign); a run of length zero gives `NaN`,
which the `Uint8Array` stores as `0`; a negative value is stored mod 256. -/
def jsParseIntHexPair (c1 c2 : Char) : Nat :=
  match hexVal c1, hexVal c2 with
  | some a, some b => 16 * a + b
  | some a, none => a
  | none, _ =>
    if c1 = ' ' ∨ c1 = '\t' ∨ c1 = '\n' ∨ c1 = '\r' then (hexVal c2).getD 0
    else if c1 = '+' then (hexVal c2).getD 0
    else if c1 = '-' then (256 - (hexVal c2).getD 0) % 256
    else 0

/-- The loop body of `hexToBytes`: each two-character slice becomes one byte.
A trailing single character (impossible once the string is padded to even
length) is parsed on its own, as `slice(i, i + 2)` would return it. -/
def hexPairsToBytes : List Char → List Nat
  | c1 :: c2 :: rest => jsParseIntHexPair c1 c2 :: hexPairsToBytes rest
  | [c] => [(hexVal c).getD 0]
  | [] => []

/-- `hexToBytes` (line 520): odd-length input is padded with one leading `"0"`,
then consecutive two-character slices are parsed as bytes. -/
def hexToBytes (hex : String) : List Nat :=
  let normalized := if hex.length % 2 = 0 then hex else "0" ++ hex
  hexPairsToBytes normalized.data

/-! ## CBOR integer decoder (`decodeCborInt`, line 482) -/

/-- JavaScript `ToInt32`: the result of `<<`/`|` chains, reducing modulo `2^32`
and reinterpreting the high bit as a sign. -/
def toInt32 (n : Nat) : Int :=
  let r := n % 4294967296
  if r < 2147483648 then (r : Int) else (r : Int) - 4294967296

/-- The common tail of `decodeCborInt`: major type 1 yields `-1 - value`,
major type 0 yields `value`, paired with the offset past the integer. -/
def mkIntResult (major : Nat) (value : Int) (endOffset : Nat) : Option (Option Int × Nat) :=
  if major = 1 then some (some (-1 - value), endOffset) else some (some value, endOffset)

/-- `decodeCborInt` (line 482).  Reads the tag byte at `offset`: the top three
bits are the major type (only 0 and 1 are integers; anything else yields the
in-band failure `[null, offset]`), the low five bits are the length selector:
a literal below 24, or 24/25/26 announcing 1/2/4 big-endian magnitude bytes.
The 2- and 4-byte magnitudes are assembled with JavaScript `<<`/`|`, i.e. in
signed 32-bit arithmetic, modelled by `toInt32` (for disjoint byte fields the
bitwise ORs coincide with addition, and only the top byte can set the sign
bit).  Truncated input returns `none`. -/
def decodeCborInt (bytes : List Nat) (offset : Nat) : Option (Option Int × Nat) :=
  if bytes.length ≤ offset then none
  else
    let initial := bytes.getD offset 0
    let off := offset + 1
    let major := initial / 32
    let additional := initial % 32
    if major ≠ 0 ∧ major ≠ 1 then some (none, off)
    else if additional < 24 then
      mkIntResult major additional off
    else if additional = 24 then
      if bytes.length < off + 1 then none
      else mkIntResult major (bytes.getD off 0) (off + 1)
    else if additional = 25 then
      if bytes.length < off + 2 then none
      else mkIntResult major (toInt32 (bytes.getD off 0 * 256 + bytes.getD (off + 1) 0)) (off + 2)
    else if additional = 26 then
      if bytes.length < off + 4 then none
      else
        mkIntResult major
          (toInt32 (bytes.getD off 0 * 16777216 + bytes.getD (off + 1) 0 * 65536 +
            bytes.getD (off + 2) 0 * 256 + bytes.getD (off + 3) 0))
          (off + 4)
    else none

/-- `parseTicketNumberFromCbor` (line 469): checks the 2-byte constructor tag
`d8 79`, a short-list header (top three bits `100`) with length at least 1,
then decodes the first integer field at offset 3.  Any structural failure,
including an in-band `null` from `decodeCborInt`, yields `none`. -/
def parseTicketNumberFromCbor (hex : String) : Option Int :=
  let bytes := hexToBytes hex
  if bytes.length < 3 then none
  else if bytes.getD 0 0 ≠ 216 ∨ bytes.getD 1 0 ≠ 121 then none
  else if Nat.land (bytes.getD 2 0) 224 ≠ 128 then none
  else if Nat.land (bytes.getD 2 0) 31 < 1 then none
  else
    match decodeCborInt bytes 3 with
    | some (value, _) => value
    | none => none

/-! ## Wallet data model and UTxO selection (lines 171-204, 776-798) -/

/-- One `(unit, quantity)` asset entry of a UTxO output; quantities are decimal
strings, as delivered by the indexer and parsed with `BigInt`. -/
structure Asset where
  unit : String
  quantity : String
deriving DecidableEq, Repr

/-- The out-point a UTxO originates from. -/
structure TxInput where
  txHash : String
  outputIndex : Nat
deriving DecidableEq, Repr

/-- The output half of a UTxO: owning address, asset list, optional inline
datum (hex). -/
structure TxOutput where
  address : String
  amount : List Asset
  plutusData : Option String
deriving DecidableEq, Repr

/-- A spendable unspent transaction output. -/
structure UTxO where
  input : TxInput
  output : TxOutput
deriving DecidableEq, Repr

/-- Accumulates the value of a decimal digit string. -/
def decStringToNat (cs : List Char) : Nat :=
  cs.foldl (fun n c => 10 * n + (c.toNat - '0'.toNat)) 0

/-- Models `BigInt(s)` on the decimal quantity strings used by the code
(missing entries default to `"0"` before conversion; `BigInt("")` is `0`). -/
def jsBigInt (s : String) : Int :=
  match s.data with
  | [] => 0
  | '-' :: rest => -(decStringToNat rest : Int)
  | cs => (decStringToNat cs : Int)

/-- `getLovelace` (line 784): the base-currency quantity of a UTxO, `0` when no
`"lovelace"` entry is present. -/
def getLovelace (utxo : UTxO) : Int :=
  jsBigInt ((((utxo.output.amount.find? (fun asset => asset.unit = "lovelace")).map
    Asset.quantity)).getD "0")

/-- `sumLovelace` (line 776): total base-currency balance of a UTxO list. -/
def sumLovelace (utxos : List UTxO) : Int :=
  utxos.foldl
    (fun total utxo =>
      total +
        jsBigInt ((((utxo.output.amount.find? (fun asset => asset.unit = "lovelace")).map
          Asset.quantity)).getD "0"))
    0

/-- The filter of `pureLovelaceUtxos` (line 183): exactly one asset entry and
that entry is the base currency. -/
def isPureLovelace (utxo : UTxO) : Bool :=
  match utxo.output.amount with
  | [asset] => asset.unit = "lovelace"
  | _ => false

/-- Stable ascending insertion for the comparator of line 188 (negative when
the first quantity is smaller, `0` on ties): an element moves past another only
when its key is strictly smaller, which is exactly the reordering a stable
ascending sort performs. -/
def insertByLovelace (utxo : UTxO) : List UTxO → List UTxO
  | [] => [utxo]
  | other :: rest =>
    if getLovelace other < getLovelace utxo then other :: insertByLovelace utxo rest
    else utxo :: other :: rest

/-- Models `Array.prototype.sort` (stable, ES2019) with the lovelace
comparator of lines 188-193. -/
def sortByLovelace : List UTxO → List UTxO
  | [] => []
  | utxo :: rest => insertByLovelace utxo (sortByLovelace rest)

/-- The collateral choice of lines 182-196: among UTxOs holding only the base
currency, sorted ascending by quantity, the first with at least 5,000,000
units (`?? null` becomes `none`). -/
def selectCollateral (utxos : List UTxO) : Option UTxO :=
  let pureLovelaceUtxos := sortByLovelace (utxos.filter isPureLovelace)
  pureLovelaceUtxos.find? (fun utxo => 5000000 ≤ getLovelace utxo)

/-! ## Ticket price (lines 52, 529) and ADA formatting (line 791) -/

/-- `PRICE_CUTOFF_UTC = Date.UTC(2026, 1, 1, 12, 0, 0)` (month index 1 is
February): milliseconds since the Unix epoch for 2026-02-01T12:00:00Z.
56 years from 1970 contain 14 leap days; January 2026 adds 31 days; then 12
hours.  The expression evaluates to 1769947200000. -/
def PRICE_CUTOFF_UTC : Int := ((56 * 365 + 14 + 31) * 24 + 12) * 3600000

/-- `getTicketPrice` (line 529) as a pure function of the current time in
milliseconds: 400,000,000 lovelace strictly before the cutoff, 500,000,000
at or after it. -/
def getTicketPrice (now : Int) : Int :=
  if now < PRICE_CUTOFF_UTC then 400000000 else 500000000

/-- `padStart(6, "0")` for the fractional part of `formatAda`. -/
def padStartZeros (s : String) (n : Nat) : String :=
  if n ≤ s.length then s else String.mk (List.replicate (n - s.length) '0') ++ s

/-- `replace(/0+$/, "")`: drop every trailing `'0'`. -/
def stripTrailingZeros (s : String) : String :=
  String.mk ((s.data.reverse.dropWhile (fun c => c = '0')).reverse)

/-- `formatAda` (line 791): sign, whole ADA part, and a fractional part padded
to six digits with trailing zeros removed, followed by `" ADA"`. -/
def formatAda (lovelace : Int) : String :=
  let sign := if lovelace < 0 then "-" else ""
  let absVal := if lovelace < 0 then -lovelace else lovelace
  let whole := absVal / 1000000
  let frac := absVal % 1000000
  let fracStr := stripTrailingZeros (padStartZeros (toString frac) 6)
  sign ++ toString whole ++ (if fracStr = "" then "" else "." ++ fracStr) ++ " ADA"

/-! ## Ticket name and datum (lines 217-237, 453) -/

/-- The Mesh `Data` shape used for the counter datum: a constructor
alternative with integer fields. -/
structure MeshData where
  alternative : Nat
  fields : List Int
deriving DecidableEq, Repr

/-- `buildTicketDatum` (line 453): constructor alternative 0 with the counter
as its single field. -/
def buildTicketDatum (ticketNo : Int) : MeshData :=
  MeshData.mk 0 [ticketNo]

/-- The values derived from the decoded counter in `refreshWallet`
(lines 228-231). -/
structure TicketPrep where
  nextTicketNo : Int
  nextTicketDatum : MeshData
  ticketName : String
deriving DecidableEq, Repr

/-- Lines 228-231: `nextTicketNo = ticketNo` (the current counter), the new
datum encodes `nextTicketNo + 1`, and the asset name is `TICKET` followed by
the decimal counter. -/
def prepareTicketMint (ticketNo : Int) : TicketPrep :=
  let nextTicketNo := ticketNo
  TicketPrep.mk nextTicketNo (buildTicketDatum (nextTicketNo + 1))
    ("TICKET" ++ toString nextTicketNo)

/-! ## Script version normalisation and dispatch (lines 732-774) -/

/-- ASCII model of JavaScript `toLowerCase`. -/
def jsToLowerCase (s : String) : String := String.mk (s.data.map Char.toLower)

/-- ASCII model of JavaScript `toUpperCase`. -/
def jsToUpperCase (s : String) : String := String.mk (s.data.map Char.toUpper)

/-- `String.prototype.replace` with a string pattern replaces only the first
occurrence; an empty pattern matches at index 0. -/
def replaceFirstChars (pat repl : List Char) : List Char → List Char
  | [] => if pat = [] then repl else []
  | c :: rest =>
    if pat.isPrefixOf (c :: rest) then repl ++ (c :: rest).drop pat.length
    else c :: replaceFirstChars pat repl rest

/-- JavaScript `s.replace(pat, repl)` for string patterns. -/
def jsReplaceFirst (s pat repl : String) : String :=
  String.mk (replaceFirstChars pat.data repl.data s.data)

/-- The normalisation pipeline of `normalizeBlockfrostVersion` (lines 733-737):
lowercase, strip one `"plutus"`, strip one `":"`, uppercase. -/
def blockfrostNormalizedType (scriptType : String) : String :=
  jsToUpperCase (jsReplaceFirst (jsReplaceFirst (jsToLowerCase scriptType) "plutus" "") ":" "")

/-- `normalizeBlockfrostVersion` (line 732): accepts exactly `V1`/`V2`/`V3`,
anything else is a fatal unsupported-type error naming the reported type. -/
def normalizeBlockfrostVersion (scriptType : String) : Except String String :=
  let normalized := blockfrostNormalizedType scriptType
  if normalized = "V1" ∨ normalized = "V2" ∨ normalized = "V3" then Except.ok normalized
  else Except.error ("Unsupported script type from Blockfrost: " ++ scriptType)

/-- Operations recorded on the modelled Mesh builder. -/
inductive BuilderOp where
  | spendingPlutusScriptV1
  | spendingPlutusScriptV2
  | spendingPlutusScriptV3
  | mintPlutusScriptV1
  | mintPlutusScriptV2
  | mintPlutusScriptV3
deriving DecidableEq, Repr

/-- The external Mesh builder, modelled as the log of version-dispatch
operations applied to it. -/
structure MeshTxBuilder where
  ops : List BuilderOp
deriving DecidableEq, Repr

/-- `applySpendingVersion` (line 747): dispatch on the version string with a
fatal default branch. -/
def applySpendingVersion (builder : MeshTxBuilder) (version : String) :
    Except String MeshTxBuilder :=
  if version = "V1" then Except.ok (MeshTxBuilder.mk (builder.ops ++ [BuilderOp.spendingPlutusScriptV1]))
  else if version = "V2" then Except.ok (MeshTxBuilder.mk (builder.ops ++ [BuilderOp.spendingPlutusScriptV2]))
  else if version = "V3" then Except.ok (MeshTxBuilder.mk (builder.ops ++ [BuilderOp.spendingPlutusScriptV3]))
  else Except.error ("Unsupported spending script version: " ++ version)

/-- `applyMintVersion` (line 763): dispatch on the version string with a fatal
default branch. -/
def applyMintVersion (builder : MeshTxBuilder) (version : String) :
    Except String MeshTxBuilder :=
  if version = "V1" then Except.ok (MeshTxBuilder.mk (builder.ops ++ [BuilderOp.mintPlutusScriptV1]))
  else if version = "V2" then Except.ok (MeshTxBuilder.mk (builder.ops ++ [BuilderOp.mintPlutusScriptV2]))
  else if version = "V3" then Except.ok (MeshTxBuilder.mk (builder.ops ++ [BuilderOp.mintPlutusScriptV3]))
  else Except.error ("Unsupported minting script version: " ++ version)

/-! ## Signature merger (lines 800-880)

The CSL transaction codec is external to the repository; it is modelled at its
interface by a `CborCodec` record of decoders over abstract transaction
values.  Serialising the merged transaction back to hex
(`fromBytes(mergedTx.to_bytes())`) is the codec's inverse direction, so the
model returns the merged `Transaction` value itself. -/

/-- One vkey witness (signature entry), identified abstractly. -/
structure Vkeywitness where
  sig : Nat
deriving DecidableEq, Repr

/-- A CSL transaction witness set: `vkeys()` may be absent (`undefined`). -/
structure TxWitnessSet where
  vkeys : Option (List Vkeywitness)
deriving DecidableEq, Repr

/-- An abstract transaction body. -/
structure TxBody where
  bodyId : Nat
deriving DecidableEq, Repr

/-- A CSL transaction: body, witness set and optional auxiliary data. -/
structure Transaction where
  body : TxBody
  witness_set : TxWitnessSet
  auxiliary_data : Option Nat
deriving DecidableEq, Repr

/-- The interface of the external CSL codec: `deserializeTx`,
`deserializeTxBody` and `deserializeTxWitnessSet`; a throwing call is an
`Except.error` (for `deserializeTx`, only success/failure is observed, via
`isFullTransactionCbor`, so it is an `Option`). -/
structure CborCodec where
  decodeTx : String → Option Transaction
  decodeTxBody : String → Except String TxBody
  decodeWitnessSet : String → Except String TxWitnessSet

/-- JavaScript `String.prototype.trim`: drop leading and trailing whitespace
(ASCII model). -/
def jsTrim (s : String) : String :=
  String.mk (((s.data.dropWhile Char.isWhitespace).reverse.dropWhile
    Char.isWhitespace).reverse)

/-- JavaScript `String.prototype.startsWith` for literal prefixes. -/
def jsStartsWith (s pre : String) : Bool :=
  pre.data.isPrefixOf s.data

/-- `isHexString` (line 744): non-empty, even length, hex digits only
(case-insensitive). -/
def isHexString (value : String) : Bool :=
  decide (0 < value.length) && decide (value.length % 2 = 0) &&
    value.data.all (fun c =>
      (decide ('0' ≤ c) && decide (c ≤ '9')) || (decide ('a' ≤ c) && decide (c ≤ 'f')) ||
        (decide ('A' ≤ c) && decide (c ≤ 'F')))

/-- `normalizeHexString` (line 845): trim, strip one `0x`/`0X`, then require
valid hex, else a fatal `"<label> is not valid hex."` error. -/
def normalizeHexString (value label : String) : Except String String :=
  let trimmed := jsTrim value
  let stripped :=
    if jsStartsWith trimmed "0x" || jsStartsWith trimmed "0X" then
      String.mk (trimmed.data.drop 2)
    else trimmed
  if isHexString stripped then Except.ok stripped
  else Except.error (label ++ " is not valid hex.")

/-- `parseUnsignedTransaction` (line 856): try a full-transaction decode, fall
back to a body-only decode wrapped with an empty witness set, else fail with
the inner decoder's message. -/
def parseUnsignedTransaction (codec : CborCodec) (unsignedTx : String) :
    Except String Transaction :=
  match codec.decodeTx unsignedTx with
  | some tx => Except.ok tx
  | none =>
    match codec.decodeTxBody unsignedTx with
    | Except.ok txBody => Except.ok (Transaction.mk txBody (TxWitnessSet.mk none) none)
    | Except.error innerError =>
      Except.error ("Unable to parse unsigned transaction CBOR. " ++ innerError)

/-- `addWitnessesToUnsigned` (line 818): parse the draft, decode the incoming
witness set, concatenate the draft's vkey witnesses (absent treated as empty,
as the `addVkeys` loop does) with the incoming ones, reject an empty combined
list, and rebuild the transaction from the original body, the combined
witnesses and the original auxiliary data. -/
def addWitnessesToUnsigned (codec : CborCodec) (unsignedTx witnessesCbor : String) :
    Except String Transaction :=
  match parseUnsignedTransaction codec unsignedTx with
  | Except.error e => Except.error e
  | Except.ok tx =>
    match codec.decodeWitnessSet witnessesCbor with
    | Except.error e => Except.error e
    | Except.ok incomingWitnessSet =>
      let currentWitnessSet := tx.witness_set
      let combinedVkeys := currentWitnessSet.vkeys.getD [] ++ incomingWitnessSet.vkeys.getD []
      if combinedVkeys.length = 0 then Except.error "Wallet returned an empty witness set."
      else
        Except.ok
          (Transaction.mk tx.body (TxWitnessSet.mk (some combinedVkeys))
            tx.auxiliary_data)

/-- The two result shapes of `normalizeSignedTx`: the wallet payload used
as-is when it already decodes as a full transaction, or the merged
transaction. -/
inductive SignedTxResult where
  | passthrough (hex : String)
  | merged (tx : Transaction)
deriving DecidableEq, Repr

/-- `normalizeSignedTx` (line 800): reject an empty (after trimming) wallet
payload, normalise both hex inputs, pass a full-transaction payload through
unchanged, otherwise merge its witnesses into the draft. -/
def normalizeSignedTx (codec : CborCodec) (unsignedTx signedResult : String) :
    Except String SignedTxResult :=
  if jsTrim signedResult = "" then Except.error "Wallet did not return a signature."
  else
    match normalizeHexString signedResult "Signed transaction" with
    | Except.error e => Except.error e
    | Except.ok normalizedSigned =>
      match normalizeHexString unsignedTx "Unsigned transaction" with
      | Except.error e => Except.error e
      | Except.ok normalizedUnsigned =>
        if (codec.decodeTx normalizedSigned).isSome then
          Except.ok (SignedTxResult.passthrough normalizedSigned)
        else
          Except.map SignedTxResult.merged
            (addWitnessesToUnsigned codec normalizedUnsigned normalizedSigned)

/-- A hex string already in normal form: trimming and prefix-stripping leave
it unchanged and it passes the hex check. -/
def cleanHex (s : String) : Prop :=
  jsTrim s = s ∧ isHexString s = true ∧ jsStartsWith s "0x" = false ∧
    jsStartsWith s "0X" = false

instance (s : String) : Decidable (cleanHex s) := by
  unfold cleanHex; infer_instance

/-! ## The purchase-build flow (`refreshWallet`, lines 147-357)

The sequential core of `refreshWallet` after the initial wallet-address UTxO
fetch, modelled as a pure function of the current time and of the results the
chain indexer would return, recording every indexer call it issues.  The model
covers the flow up to a successfully drafted transaction (the point where the
builder library takes over). -/

/-- The indexer calls issued by `refreshWallet`, in order: the initial
balance fetch (line 163), the state-UTxO fetch (line 207), and the script
reference resolution (line 245). -/
inductive NetCall where
  | fetchWalletUtxos
  | fetchStateUtxos
  | fetchScriptRef
deriving DecidableEq, Repr

/-- The metadata of a resolved reference script. -/
structure ScriptRefInfo where
  version : String
  scriptSize : String
deriving DecidableEq, Repr

/-- The responses the chain indexer would give to each call of one build
attempt. -/
structure ChainEnv where
  walletUtxos : List UTxO
  stateUtxos : List UTxO
  scriptRefResult : Except String ScriptRefInfo

/-- `parseTicketNumber` (line 458): absent inline datum, or any parse
failure, reads as `none`. -/
def parseTicketNumber (stateUtxo : UTxO) : Option Int :=
  match stateUtxo.output.plutusData with
  | none => none
  | some plutusData => parseTicketNumberFromCbor plutusData

/-- The status text of lines 174-178. -/
def insufficientAdaMessage (required available : Int) : String :=
  "Insufficient ADA. Need at least " ++ formatAda required ++ " (ticket + fees), have " ++
    formatAda available ++ "."

/-- The body of `refreshWallet` from line 163 on, as status text plus the list
of indexer calls issued: empty wallet, insufficient balance and missing
collateral abort after the initial fetch alone; the state-UTxO fetch and the
script-reference fetch each happen only once every earlier check has
passed. -/
def refreshWalletModel (now : Int) (env : ChainEnv) : String × List NetCall :=
  let initialCalls := [NetCall.fetchWalletUtxos]
  if env.walletUtxos.length = 0 then ("No UTxOs available to build a draft.", initialCalls)
  else
    let totalLovelace := sumLovelace env.walletUtxos
    let requiredLovelace := getTicketPrice now + 5000000
    if totalLovelace < requiredLovelace then
      (insufficientAdaMessage requiredLovelace totalLovelace, initialCalls)
    else
      let pureLovelaceUtxos := sortByLovelace (env.walletUtxos.filter isPureLovelace)
      match pureLovelaceUtxos.find? (fun utxo => 5000000 ≤ getLovelace utxo) with
      | none =>
        (if pureLovelaceUtxos.length = 0 then "No ADA-only UTxO available for collateral."
         else "Collateral UTxO must be at least 5 ADA.", initialCalls)
      | some _ =>
        let stateCalls := initialCalls ++ [NetCall.fetchStateUtxos]
        match env.stateUtxos.head? with
        | none => ("State UTxO not found. Please retry.", stateCalls)
        | some stateUtxo =>
          match parseTicketNumber stateUtxo with
          | none => ("Unable to read ticket counter datum.", stateCalls)
          | some _ =>
            let scriptCalls := stateCalls ++ [NetCall.fetchScriptRef]
            match env.scriptRefResult with
            | Except.error e =>
              ("Failed to fetch issuer script reference (not a balance issue). " ++ e,
                scriptCalls)
            | Except.ok _ => ("Draft transaction built. Awaiting signature...", scriptCalls)

/-! ## Concrete fixtures used by witnesses and counterexamples -/

/-- A 3,000,000-lovelace pure-currency UTxO. -/
def demoUtxo3 : UTxO :=
  UTxO.mk (TxInput.mk "tx3" 0) (TxOutput.mk "addrBuyer" [Asset.mk "lovelace" "3000000"] none)

/-- A 5,000,000-lovelace pure-currency UTxO. -/
def demoUtxo5 : UTxO :=
  UTxO.mk (TxInput.mk "tx5" 0) (TxOutput.mk "addrBuyer" [Asset.mk "lovelace" "5000000"] none)

/-- A 7,000,000-lovelace UTxO that also carries a second asset. -/
def demoUtxo7 : UTxO :=
  UTxO.mk (TxInput.mk "tx7" 0)
    (TxOutput.mk "addrBuyer" [Asset.mk "lovelace" "7000000", Asset.mk "policy0asset0" "1"] none)

/-- A 6,000,000-lovelace pure-currency UTxO. -/
def demoUtxo6 : UTxO :=
  UTxO.mk (TxInput.mk "tx6" 0) (TxOutput.mk "addrBuyer" [Asset.mk "lovelace" "6000000"] none)

/-- The UTxO list of the collateral-selection scenario, in its stated order. -/
def demoWalletUtxos : List UTxO := [demoUtxo3, demoUtxo5, demoUtxo7, demoUtxo6]

/-- A vkey witness already on the draft. -/
def demoWit1 : Vkeywitness := Vkeywitness.mk 1

/-- A vkey witness returned by the wallet. -/
def demoWit7 : Vkeywitness := Vkeywitness.mk 7

/-- The shared draft body. -/
def demoBody : TxBody := TxBody.mk 5

/-- A draft transaction with zero vkey witnesses. -/
def demoDraftTx0 : Transaction := Transaction.mk demoBody (TxWitnessSet.mk (some [])) none

/-- A draft transaction with one vkey witness. -/
def demoDraftTx1 : Transaction := Transaction.mk demoBody (TxWitnessSet.mk (some [demoWit1])) none

/-- A complete transaction as a wallet could return it. -/
def demoFullTx : Transaction := Transaction.mk demoBody (TxWitnessSet.mk (some [demoWit7])) (some 3)

/-- A concrete codec: `"ff"` decodes as a full transaction, `"d0"`/`"d1"` as
drafts with zero/one witness, `"ab"` as a one-signature witness set, `"ee"`
as an empty witness set; everything else fails. -/
def demoCodec : CborCodec :=
  CborCodec.mk
    (fun s =>
      if s = "ff" then some demoFullTx
      else if s = "d0" then some demoDraftTx0
      else if s = "d1" then some demoDraftTx1
      else none)
    (fun _ => Except.error "no body")
    (fun s =>
      if s = "ab" then Except.ok (TxWitnessSet.mk (some [demoWit7]))
      else if s = "ee" then Except.ok (TxWitnessSet.mk (some []))
      else Except.error "no witness set")

/-- An environment with an empty wallet. -/
def demoEmptyEnv : ChainEnv := ChainEnv.mk [] [] (Except.error "offline")

/-- An environment whose only wallet UTxO holds 3,000,000 lovelace. -/
def demoLowBalanceEnv : ChainEnv := ChainEnv.mk [demoUtxo3] [] (Except.error "offline")

/-! ## Claim C2 — collateral selection scenario -/

/-- Claim C2 counterexample: on the scenario UTxO list
[3,000,000 pure, 5,000,000 pure, 7,000,000 mixed, 6,000,000 pure] the selector
picks the 5,000,000 pure-currency UTxO (it already meets the inclusive
5,000,000 minimum), not the 6,000,000 one the claim names. -/
theorem selectCollateral_picks_five_cex :
    selectCollateral demoWalletUtxos = some demoUtxo5 ∧
    selectCollateral demoWalletUtxos ≠ some demoUtxo6 ∧
    getLovelace demoUtxo5 = 5000000 ∧ getLovelace demoUtxo6 = 6000000 := by
  refine ⟨by decide, by decide, by decide, by decide⟩

/-- Claim C2 (amended): on the scenario list the selector picks the 5,000,000
pure-currency UTxO — the smallest pure-currency one at or above the 5,000,000
minimum — with the mixed-asset UTxO excluded and the 3,000,000 one below the
minimum. -/
theorem selectCollateral_amended :
    selectCollateral demoWalletUtxos = some demoUtxo5 ∧
    isPureLovelace demoUtxo7 = false ∧
    getLovelace demoUtxo3 < 5000000 ∧
    5000000 ≤ getLovelace demoUtxo5 ∧
    getLovelace demoUtxo5 ≤ getLovelace demoUtxo6 := by
  refine ⟨by decide, by decide, by decide, by decide, by decide⟩

/-! ## Claim C4 — ticket name and next datum -/

/-- Claim C4: for every decoded counter value `n`, the minted ticket's asset
name is `"TICKET"` followed by the decimal rendering of the current counter
(not `n + 1`), while the recreated state UTxO's inline datum is the same
tagged shape (alternative 0) encoding `n + 1`; in particular counter 41 gives
name `"TICKET41"` and a datum encoding 42. -/
theorem prepareTicketMint_spec (n : Int) :
    (prepareTicketMint n).ticketName = "TICKET" ++ toString n ∧
    (prepareTicketMint n).nextTicketDatum = MeshData.mk 0 [n + 1] ∧
    prepareTicketMint 41 = TicketPrep.mk 41 (MeshData.mk 0 [42]) "TICKET41" := by
  refine ⟨rfl, rfl, by decide⟩

/-! ## Claim C5 — two-tier price -/

/-- Claim C5: the ticket price is a pure two-tier function of the build time:
400,000,000 lovelace strictly before the fixed cutoff instant
(2026-02-01T12:00:00Z) and 500,000,000 lovelace at or after it. -/
theorem getTicketPrice_two_tier (t : Int) :
    (t < PRICE_CUTOFF_UTC → getTicketPrice t = 400000000) ∧
    (PRICE_CUTOFF_UTC ≤ t → getTicketPrice t = 500000000) := by
  unfold getTicketPrice
  constructor
  · intro h; rw [if_pos h]
  · intro h; rw [if_neg (by omega)]

/-- Witness for claim C5 at the instants 0 and the cutoff itself. -/
theorem getTicketPrice_two_tier_witness :
    getTicketPrice 0 = 400000000 ∧ getTicketPrice 1769947200000 = 500000000 :=
  ⟨(getTicketPrice_two_tier 0).1 (by decide),
   (getTicketPrice_two_tier 1769947200000).2 (by decide)⟩

/-! ## Claim C8 — unsupported script versions are fatal -/

/-- Claim C8: a script type whose normalised form is none of `V1`/`V2`/`V3`
makes version normalisation fail with an unsupported-type error naming the
reported type, and the spend and mint dispatchers likewise fail with an
unsupported-version error naming the version — never an `ok` fallback. -/
theorem unsupported_version_fatal (scriptType version : String) (builder : MeshTxBuilder)
    (h1 : blockfrostNormalizedType scriptType ≠ "V1")
    (h2 : blockfrostNormalizedType scriptType ≠ "V2")
    (h3 : blockfrostNormalizedType scriptType ≠ "V3")
    (h4 : version ≠ "V1") (h5 : version ≠ "V2") (h6 : version ≠ "V3") :
    normalizeBlockfrostVersion scriptType =
      Except.error ("Unsupported script type from Blockfrost: " ++ scriptType) ∧
    applySpendingVersion builder version =
      Except.error ("Unsupported spending script version: " ++ version) ∧
    applyMintVersion builder version =
      Except.error ("Unsupported minting script version: " ++ version) := by
  refine ⟨?_, ?_, ?_⟩
  · unfold normalizeBlockfrostVersion
    rw [if_neg]
    intro h
    rcases h with h | h | h
    · exact h1 h
    · exact h2 h
    · exact h3 h
  · unfold applySpendingVersion
    rw [if_neg h4, if_neg h5, if_neg h6]
  · unfold applyMintVersion
    rw [if_neg h4, if_neg h5, if_neg h6]

/-- Witness for claim C8: the indexer type `"plutusV4"` normalises to `"V4"`
and is rejected everywhere. -/
theorem unsupported_version_fatal_witness :
    normalizeBlockfrostVersion "plutusV4" =
      Except.error ("Unsupported script type from Blockfrost: " ++ "plutusV4") ∧
    applySpendingVersion (MeshTxBuilder.mk []) "V4" =
      Except.error ("Unsupported spending script version: " ++ "V4") ∧
    applyMintVersion (MeshTxBuilder.mk []) "V4" =
      Except.error ("Unsupported minting script version: " ++ "V4") :=
  unsupported_version_fatal "plutusV4" "V4" (MeshTxBuilder.mk []) (by decide) (by decide)
    (by decide) (by decide) (by decide) (by decide)

/-! ## Claim C1 — decoding valid non-negative integer encodings -/

/-- The spec's notion of a valid encoding of the non-negative integer `n` in
one of the four length tiers: a literal tag byte below 24, or selector
24/25/26 followed by 1/2/4 big-endian magnitude bytes (stated from the spec,
to be compared with the behaviour of `decodeCborInt`). -/
def specValidUIntEncoding (n : Nat) (bytes : List Nat) : Prop :=
  (n < 24 ∧ bytes = [n]) ∨
  (n < 256 ∧ bytes = [24, n]) ∨
  (n < 65536 ∧ bytes = [25, n / 256, n % 256]) ∨
  (n < 4294967296 ∧ bytes = [26, n / 16777216, n / 65536 % 256, n / 256 % 256, n % 256])

/-- `toInt32` is the identity below `2^31`. -/
theorem toInt32_of_lt (n : Nat) (h : n < 2147483648) : toInt32 n = (n : Int) := by
  unfold toInt32
  rw [Nat.mod_eq_of_lt (by omega), if_pos (by exact_mod_cast h)]

/-- Claim C1 counterexample: `2^31` has the valid 4-byte encoding
`1a 80 00 00 00`, but the decoder assembles the magnitude with JavaScript's
signed 32-bit `<<`/`|`, returning `-2147483648` instead of `2147483648`. -/
theorem decodeCborInt_overflow_cex :
    specValidUIntEncoding 2147483648 [26, 128, 0, 0, 0] ∧
    decodeCborInt [26, 128, 0, 0, 0] 0 = some (some (-2147483648 : Int), 5) ∧
    (-2147483648 : Int) ≠ (2147483648 : Int) := by
  refine ⟨Or.inr (Or.inr (Or.inr ⟨by norm_num, by norm_num⟩)), by decide, by decide⟩

/-- Claim C1 (amended): for every `n` with `0 ≤ n ≤ 2^31 - 1` and every valid
encoding of `n` in one of the four length tiers, the integer sub-decoder
(major type 0) returns exactly `n`, consuming the whole encoding.  (For
`2^31 ≤ n ≤ 2^32 - 1` the 4-byte tier instead yields `n - 2^32`, the signed
32-bit reinterpretation.) -/
theorem decodeCborInt_exact (n : Nat) (bytes : List Nat)
    (henc : specValidUIntEncoding n bytes) (hn : n < 2147483648) :
    decodeCborInt bytes 0 = some (some (n : Int), bytes.length) := by
  rcases henc with ⟨h24, rfl⟩ | ⟨h256, rfl⟩ | ⟨h16, rfl⟩ | ⟨h32, rfl⟩
  · have hd : n / 32 = 0 := Nat.div_eq_of_lt (by omega)
    have hm : n % 32 = n := Nat.mod_eq_of_lt (by omega)
    simp [decodeCborInt, mkIntResult, hd, hm, h24]
  · simp [decodeCborInt, mkIntResult]
  · have hre : n / 256 * 256 + n % 256 = n := by omega
    simp only [decodeCborInt, mkIntResult, List.getD, List.length_cons, List.length_nil,
      List.get?, List.getD_cons_zero, List.getD_cons_succ]
    norm_num [hre, toInt32_of_lt n hn]
  · have hre : n / 16777216 * 16777216 + n / 65536 % 256 * 65536 + n / 256 % 256 * 256 +
        n % 256 = n := by omega
    simp only [decodeCborInt, mkIntResult, List.getD, List.length_cons, List.length_nil,
      List.get?, List.getD_cons_zero, List.getD_cons_succ]
    norm_num [hre, toInt32_of_lt n hn]

/-- Witness for claim C1 (amended): the 2-byte-tier encoding `19 01 2c`
decodes to 300. -/
theorem decodeCborInt_exact_witness :
    decodeCborInt [25, 1, 44] 0 = some (some (300 : Int), 3) :=
  decodeCborInt_exact 300 [25, 1, 44]
    (Or.inr (Or.inr (Or.inl ⟨by norm_num, by norm_num⟩))) (by norm_num)

/-! ## Claim C6 — structurally invalid counter datums decode to `none` -/

/-- The structural-invalidity classes of the claim, phrased over the byte
form of the input: shorter than 3 bytes, wrong 2-byte constructor tag, list
header whose top three bits are not the short-list mark, list length 0, or a
truncated/unsupported integer field (a `none` from `decodeCborInt`). -/
def counterDatumInvalid (hex : String) : Bool :=
  let bytes := hexToBytes hex
  decide (bytes.length < 3) || decide (bytes.getD 0 0 ≠ 216) ||
    decide (bytes.getD 1 0 ≠ 121) || decide (Nat.land (bytes.getD 2 0) 224 ≠ 128) ||
    decide (Nat.land (bytes.getD 2 0) 31 < 1) || decide (decodeCborInt bytes 3 = none)

/-- Claim C6: every hex input that is structurally invalid as the tagged
counter datum decodes to the failure signal `none` — the decoder is total, so
no exception is possible, and no number is returned. -/
theorem parseTicketNumber_invalid (hex : String) (h : counterDatumInvalid hex = true) :
    parseTicketNumberFromCbor hex = none := by
  unfold counterDatumInvalid at h
  unfold parseTicketNumberFromCbor
  simp only [Bool.or_eq_true, decide_eq_true_eq] at h
  dsimp only
  split_ifs with h1 h2 h3 h4
  · rfl
  · rfl
  · rfl
  · rfl
  · rcases h with ⟨⟨⟨⟨h | h⟩ | h⟩ | h⟩ | h⟩ | h
    · exact absurd h h1
    · exact absurd (Or.inl h) h2
    · exact absurd (Or.inr h) h2
    · exact absurd h h3
    · exact absurd h h4
    · rw [h]

/-- Witness for claim C6: `d8 7a 80` carries the wrong constructor tag and
parses to `none`. -/
theorem parseTicketNumber_invalid_witness :
    counterDatumInvalid "d87a80" = true ∧ parseTicketNumberFromCbor "d87a80" = none :=
  ⟨by decide, parseTicketNumber_invalid "d87a80" (by decide)⟩

/-! ## Claim C10 — odd-length hex is zero-padded, not rejected -/

/-- Claim C10: the byte conversion pads an odd-length hex string with one
leading zero nibble instead of rejecting it, so both it and the counter
decoder give the same result on the input as on `"0"` prefixed to it. -/
theorem hexToBytes_odd_pad (hex : String) (h : hex.length % 2 = 1) :
    hexToBytes hex = hexToBytes ("0" ++ hex) ∧
    parseTicketNumberFromCbor hex = parseTicketNumberFromCbor ("0" ++ hex) := by
  have hlen : ("0" ++ hex).length = 1 + hex.length := by
    rw [String.length_append]; rfl
  have hbytes : hexToBytes hex = hexToBytes ("0" ++ hex) := by
    unfold hexToBytes
    rw [if_neg (by omega), hlen, if_pos (by omega)]
  exact ⟨hbytes, by unfold parseTicketNumberFromCbor; rw [hbytes]⟩

/-- Witness for claim C10 at the three-character input `"123"`. -/
theorem hexToBytes_odd_pad_witness :
    hexToBytes "123" = hexToBytes ("0" ++ "123") ∧
    parseTicketNumberFromCbor "123" = parseTicketNumberFromCbor ("0" ++ "123") :=
  hexToBytes_odd_pad "123" (by decide)

/-! ## Claim C9 — insufficient balance aborts before further network calls -/

/-- Claim C9 counterexample: with an empty wallet UTxO set the total balance
(0) is strictly below price + buffer, and the build does abort after the
initial fetch alone — but with the no-UTxO status, which names no required or
available amount, not the shortfall message the claim requires for every such
execution. -/
theorem insufficient_balance_cex :
    sumLovelace demoEmptyEnv.walletUtxos < getTicketPrice 0 + 5000000 ∧
    refreshWalletModel 0 demoEmptyEnv =
      ("No UTxOs available to build a draft.", [NetCall.fetchWalletUtxos]) ∧
    (refreshWalletModel 0 demoEmptyEnv).1 ≠
      insufficientAdaMessage (getTicketPrice 0 + 5000000)
        (sumLovelace demoEmptyEnv.walletUtxos) := by
  refine ⟨by decide, by decide, by decide⟩

/-- Claim C9 (amended): in every execution whose initial fetch returns at
least one UTxO and whose total base-currency balance is strictly below the
ticket price plus the 5,000,000 buffer, the build aborts with the message
stating the required and available amounts, and the only indexer call issued
is the initial balance fetch — neither the state-UTxO fetch nor the
script-reference fetch happens. -/
theorem insufficient_balance_aborts (now : Int) (env : ChainEnv)
    (hne : env.walletUtxos.length ≠ 0)
    (h : sumLovelace env.walletUtxos < getTicketPrice now + 5000000) :
    refreshWalletModel now env =
      (insufficientAdaMessage (getTicketPrice now + 5000000) (sumLovelace env.walletUtxos),
        [NetCall.fetchWalletUtxos]) := by
  unfold refreshWalletModel
  rw [if_neg hne]
  dsimp only
  rw [if_pos h]

/-- Witness for claim C9 (amended): a wallet holding one 3,000,000-lovelace
UTxO before the cutoff (required 405,000,000) aborts with the shortfall
message and no further calls. -/
theorem insufficient_balance_aborts_witness :
    refreshWalletModel 0 demoLowBalanceEnv =
      (insufficientAdaMessage (getTicketPrice 0 + 5000000)
        (sumLovelace demoLowBalanceEnv.walletUtxos), [NetCall.fetchWalletUtxos]) :=
  insufficient_balance_aborts 0 demoLowBalanceEnv (by decide) (by decide)

/-! ## Claims C3 and C7 — signature merger -/

deriving instance DecidableEq for Except

/-- A hex string in normal form does not trim to empty (it has at least one
character by the hex check). -/
theorem cleanHex_trim_ne (s : String) (h : cleanHex s) : jsTrim s ≠ "" := by
  intro he
  rw [h.1] at he
  subst he
  exact absurd h.2.1 (by decide)

/-- `normalizeHexString` passes a hex string in normal form through
unchanged. -/
theorem normalizeHexString_of_clean (s label : String) (h : cleanHex s) :
    normalizeHexString s label = Except.ok s := by
  obtain ⟨h1, h2, h3, h4⟩ := h
  unfold normalizeHexString
  dsimp only
  rw [h1, h3, h4]
  simp [h2]

/-- Claim C3: when the wallet payload already decodes as a complete
transaction it is passed through unchanged with no merge; a draft with zero
vkey witnesses merged with a one-signature witness-set payload yields a
transaction with exactly one vkey witness; a draft with one vkey witness
merged with a one-signature payload yields exactly two, draft witnesses
first. -/
theorem normalizeSignedTx_merge_cases (codec : CborCodec) (draft payload : String)
    (t : Transaction) (w : TxWitnessSet) (cw iw : Vkeywitness)
    (hd : cleanHex draft) (hp : cleanHex payload) :
    ((codec.decodeTx payload).isSome = true →
      normalizeSignedTx codec draft payload =
        Except.ok (SignedTxResult.passthrough payload)) ∧
    (codec.decodeTx payload = none → codec.decodeTx draft = some t →
      codec.decodeWitnessSet payload = Except.ok w →
      t.witness_set.vkeys.getD [] = [] → w.vkeys.getD [] = [iw] →
      normalizeSignedTx codec draft payload =
        Except.ok (SignedTxResult.merged
          (Transaction.mk t.body (TxWitnessSet.mk (some [iw])) t.auxiliary_data))) ∧
    (codec.decodeTx payload = none → codec.decodeTx draft = some t →
      codec.decodeWitnessSet payload = Except.ok w →
      t.witness_set.vkeys.getD [] = [cw] → w.vkeys.getD [] = [iw] →
      normalizeSignedTx codec draft payload =
        Except.ok (SignedTxResult.merged
          (Transaction.mk t.body (TxWitnessSet.mk (some [cw, iw])) t.auxiliary_data))) := by
  have hne := cleanHex_trim_ne payload hp
  have hps := normalizeHexString_of_clean payload "Signed transaction" hp
  have hds := normalizeHexString_of_clean draft "Unsigned transaction" hd
  refine ⟨?_, ?_, ?_⟩
  · intro hfull
    unfold normalizeSignedTx
    rw [if_neg hne]
    simp only [hps, hds]
    simp [hfull]
  · intro hnone hdtx hwits hcur hinc
    unfold normalizeSignedTx addWitnessesToUnsigned parseUnsignedTransaction
    rw [if_neg hne]
    simp only [hps, hds, hnone, hdtx, hwits]
    simp [hcur, hinc, Except.map]
  · intro hnone hdtx hwits hcur hinc
    unfold normalizeSignedTx addWitnessesToUnsigned parseUnsignedTransaction
    rw [if_neg hne]
    simp only [hps, hds, hnone, hdtx, hwits]
    simp [hcur, hinc, Except.map]

/-- Witness for claim C3 on the concrete codec: passthrough of the full
transaction `"ff"`, a 0+1 merge with one resulting witness, and a 1+1 merge
with two. -/
theorem normalizeSignedTx_merge_cases_witness :
    normalizeSignedTx demoCodec "d0" "ff" = Except.ok (SignedTxResult.passthrough "ff") ∧
    normalizeSignedTx demoCodec "d0" "ab" =
      Except.ok (SignedTxResult.merged
        (Transaction.mk demoBody (TxWitnessSet.mk (some [demoWit7])) none)) ∧
    normalizeSignedTx demoCodec "d1" "ab" =
      Except.ok (SignedTxResult.merged
        (Transaction.mk demoBody (TxWitnessSet.mk (some [demoWit1, demoWit7])) none)) :=
  ⟨(normalizeSignedTx_merge_cases demoCodec "d0" "ff" demoDraftTx0
      (TxWitnessSet.mk (some [demoWit7])) demoWit1 demoWit7 (by decide) (by decide)).1
      (by decide),
   (normalizeSignedTx_merge_cases demoCodec "d0" "ab" demoDraftTx0
      (TxWitnessSet.mk (some [demoWit7])) demoWit1 demoWit7 (by decide) (by decide)).2.1
      (by decide) (by decide) (by decide) (by decide) (by decide),
   (normalizeSignedTx_merge_cases demoCodec "d1" "ab" demoDraftTx1
      (TxWitnessSet.mk (some [demoWit7])) demoWit1 demoWit7 (by decide) (by decide)).2.2
      (by decide) (by decide) (by decide) (by decide) (by decide)⟩

/-- Claim C7 counterexample: a non-empty wallet payload that is not valid hex
(`"zz"`) makes the merger abort with the hex-format error — an abort that is
neither of the two cases the claim says are the only ones. -/
theorem normalizeSignedTx_invalid_hex_cex :
    normalizeSignedTx demoCodec "d0" "zz" =
      Except.error "Signed transaction is not valid hex." ∧
    jsTrim "zz" ≠ "" ∧
    "Signed transaction is not valid hex." ≠ "Wallet did not return a signature." ∧
    "Signed transaction is not valid hex." ≠ "Wallet returned an empty witness set." := by
  refine ⟨rfl, by decide, by decide, by decide⟩

/-- Claim C7 (amended): the merger aborts when the wallet payload trims to
empty, and when the combined vkey-witness list after merging is empty; it can
also abort earlier on format failures (malformed hex, undecodable draft or
witness payload), so among well-formed, decodable inputs the two named cases
are exactly the aborts — with any non-empty combined witness list the merge
succeeds. -/
theorem normalizeSignedTx_abort_cases (codec : CborCodec) (draft payload : String)
    (t : Transaction) (w : TxWitnessSet) :
    (jsTrim payload = "" →
      normalizeSignedTx codec draft payload =
        Except.error "Wallet did not return a signature.") ∧
    (cleanHex draft → cleanHex payload → codec.decodeTx payload = none →
      codec.decodeTx draft = some t → codec.decodeWitnessSet payload = Except.ok w →
      t.witness_set.vkeys.getD [] ++ w.vkeys.getD [] = [] →
      normalizeSignedTx codec draft payload =
        Except.error "Wallet returned an empty witness set.") ∧
    (cleanHex draft → cleanHex payload → codec.decodeTx payload = none →
      codec.decodeTx draft = some t → codec.decodeWitnessSet payload = Except.ok w →
      t.witness_set.vkeys.getD [] ++ w.vkeys.getD [] ≠ [] →
      normalizeSignedTx codec draft payload =
        Except.ok (SignedTxResult.merged (Transaction.mk t.body
          (TxWitnessSet.mk (some (t.witness_set.vkeys.getD [] ++ w.vkeys.getD [])))
          t.auxiliary_data))) := by
  refine ⟨?_, ?_, ?_⟩
  · intro he
    unfold normalizeSignedTx
    rw [if_pos he]
  · intro hd hp hnone hdtx hwits hcomb
    have hne := cleanHex_trim_ne payload hp
    have hps := normalizeHexString_of_clean payload "Signed transaction" hp
    have hds := normalizeHexString_of_clean draft "Unsigned transaction" hd
    unfold normalizeSignedTx addWitnessesToUnsigned parseUnsignedTransaction
    rw [if_neg hne]
    simp only [hps, hds, hnone, hdtx, hwits]
    simp [hcomb, Except.map]
  · intro hd hp hnone hdtx hwits hcomb
    have hne := cleanHex_trim_ne payload hp
    have hps := normalizeHexString_of_clean payload "Signed transaction" hp
    have hds := normalizeHexString_of_clean draft "Unsigned transaction" hd
    have hlen : ¬((t.witness_set.vkeys.getD [] ++ w.vkeys.getD []).length = 0) := fun hz =>
      hcomb (List.length_eq_zero.mp hz)
    unfold normalizeSignedTx addWitnessesToUnsigned parseUnsignedTransaction
    rw [if_neg hne]
    simp only [hps, hds, hnone, hdtx, hwits]
    rw [if_neg hlen]
    simp [Except.map]

/-- Witness for claim C7 (amended): a whitespace-only payload aborts with the
no-signature error, and an empty decoded witness set merged onto a
zero-witness draft aborts with the empty-witness-set error. -/
theorem normalizeSignedTx_abort_cases_witness :
    normalizeSignedTx demoCodec "d0" " " =
      Except.error "Wallet did not return a signature." ∧
    normalizeSignedTx demoCodec "d0" "ee" =
      Except.error "Wallet returned an empty witness set." :=
  ⟨(normalizeSignedTx_abort_cases demoCodec "d0" " " demoDraftTx0
      (TxWitnessSet.mk (some []))).1 (by decide),
   (normalizeSignedTx_abort_cases demoCodec "d0" "ee" demoDraftTx0
      (TxWitnessSet.mk (some []))).2.1 (by decide) (by decide) (by decide) (by decide)
      (by decide) (by decide)⟩
